import Mathlib

/-!
Shallow embedding of the `alx_travel_app` listings application.

Sources embedded:
- `listings/models.py`: the Listing, Booking and Review record kinds, their
  fields, and the validators declared on `Review.rating`.
- `listings/serializers.py`: `ListingSerializer`, `BookingSerializer`.
- `listings/urls.py`: the route table.
- `listings/management/commands/seed.py`: the seeding command (`handle`,
  `create_users`, `create_listings`, `create_bookings`, `create_reviews`).

Modelling conventions:
- Fixed-point decimals with two decimal places (`DecimalField(decimal_places=2)`)
  are integers counted in cents: `Decimal("150.00")` is `15000`.
- Calendar dates are day numbers (`Int`); `timedelta(days = n)` is `+ n`, and
  `(end_date - start_date).days` is integer subtraction.
- Generated UUID primary keys are natural-number identifiers drawn from a
  per-store fresh counter `nextId`; only freshness matters to the claims.
- The persistent database is an explicit `Store` record threaded through the
  operations; a Django queryset delete or create becomes a pure update of it.
-/

namespace AlxTravel

/-- Two-decimal-place fixed-point amounts, in cents. -/
abbrev Cents := Int

/-- Embeds the `Listing` model of `models.py`: UUID primary key `id`,
`title`, `description`, `price_per_night` (decimal), timestamps omitted. -/
structure Listing where
  id : Nat
  title : String
  description : String
  price_per_night : Cents
  deriving Repr, DecidableEq, Inhabited

/-- String form of a Listing: `Listing.__str__` in `models.py` returns the title. -/
def Listing.str (l : Listing) : String := l.title

/-- Embeds the Django user record referenced by the seed command: `username`,
`email`, and the stored password credential. -/
structure UserRec where
  id : Nat
  username : String
  email : String
  password : String
  deriving Repr, DecidableEq, Inhabited

/-- Modelled from the spec: the user model lives in the authentication
subsystem, not under this repository. Its human-readable string form is the
username. -/
def UserRec.str (u : UserRec) : String := u.username

/-- Embeds the `Booking` model of `models.py`: UUID primary key `booking_id`,
foreign keys to listing and user, date range, stored `total_price`, `status`. -/
structure Booking where
  booking_id : Nat
  listing_id : Nat
  user_id : Nat
  start_date : Int
  end_date : Int
  total_price : Cents
  status : String
  deriving Repr, DecidableEq, Inhabited

/-- Embeds the `Review` model of `models.py`: UUID primary key `review_id`,
foreign key to listing, integer `rating`, `comment`. -/
structure Review where
  review_id : Nat
  listing_id : Nat
  rating : Int
  comment : String
  deriving Repr, DecidableEq, Inhabited

/-- The persistent relational store: one table per record kind, plus the
fresh-identifier counter standing in for UUID generation. -/
structure Store where
  users : List UserRec
  listings : List Listing
  bookings : List Booking
  reviews : List Review
  nextId : Nat
  deriving Repr, DecidableEq, Inhabited

/-- A store with no records at all. -/
def emptyStore : Store := ⟨[], [], [], [], 0⟩

/-! Validators declared on `Review.rating` in `models.py`:
`validators=[MinValueValidator(1), MaxValueValidator(5)]`. -/

/-- Embeds `django.core.validators.MinValueValidator limit`: accepts `v`
exactly when `limit ≤ v`. -/
def minValueValidator (limit v : Int) : Bool := limit ≤ v

/-- Embeds `django.core.validators.MaxValueValidator limit`: accepts `v`
exactly when `v ≤ limit`. -/
def maxValueValidator (limit v : Int) : Bool := v ≤ limit

/-- The conjunction of the two validators declared on `Review.rating`. -/
def ratingValidatorsPass (v : Int) : Bool :=
  minValueValidator 1 v && maxValueValidator 5 v

/-- Modelled from the spec: the ValidationError-raising persistence path
(full_clean before save) is framework machinery not under `src/`; the spec
states that an out-of-range rating "fails with a ValidationError-equivalent at
the point of persistence". The validators it runs are the ones declared on
`Review.rating` in `models.py`. -/
def reviewFullCleanCreate (s : Store) (listing_id : Nat) (rating : Int)
    (comment : String) : Except String Store :=
  if ratingValidatorsPass rating then
    Except.ok { s with
      reviews := s.reviews ++ [⟨s.nextId, listing_id, rating, comment⟩],
      nextId := s.nextId + 1 }
  else
    Except.error "ValidationError"

/-- Modelled from the spec: the `listing_update` view named in `urls.py` is not
under `src/`; a later change of the nightly rate of one listing is modelled as
an in-place update of the `price_per_night` field of the listing with the given
identifier. -/
def updateListingPrice (s : Store) (lid : Nat) (p : Cents) : Store :=
  { s with listings := s.listings.map (fun l =>
      if l.id == lid then { l with price_per_night := p } else l) }

/-! The seed command, `management/commands/seed.py`. -/

/-- The `users_data` literal of `Command.create_users`: username and email. -/
def users_data : List (String × String) :=
  [("john_doe", "john@example.com"),
   ("jane_smith", "jane@example.com"),
   ("bob_wilson", "bob@example.com")]

/-- Embeds `User.objects.get_or_create(username=..., defaults=dict(email))`
followed by `set_password("password123")` on the created branch: a user
matched by username is returned untouched; otherwise a fresh user is inserted
with the given email and the default password. -/
def getOrCreateUser (s : Store) (username email : String) : Store × UserRec :=
  match s.users.find? (fun u => u.username == username) with
  | some u => (s, u)
  | none =>
      let u : UserRec := ⟨s.nextId, username, email, "password123"⟩
      ({ s with users := s.users ++ [u], nextId := s.nextId + 1 }, u)

/-- The loop body of `Command.create_users`: get-or-create each entry in order,
collecting the resulting user objects. -/
def create_users_go : List (String × String) → Store → Store × List UserRec
  | [], s => (s, [])
  | (username, email) :: rest, s =>
      let p := getOrCreateUser s username email
      let q := create_users_go rest p.1
      (q.1, p.2 :: q.2)

/-- Embeds `Command.create_users`. -/
def create_users (s : Store) : Store × List UserRec :=
  create_users_go users_data s

/-- One entry of the `listings_data` literal. -/
structure ListingData where
  title : String
  description : String
  price_per_night : Cents
  deriving Repr, DecidableEq, Inhabited

/-- The `listings_data` literal of `Command.create_listings`. -/
def listings_data : List ListingData :=
  [⟨"Cozy Beachfront Villa",
    "Beautiful villa with ocean view, 3 bedrooms, fully equipped kitchen.",
    15000⟩,
   ⟨"Mountain Cabin Retreat",
    "Peaceful cabin in the mountains, perfect for hiking enthusiasts.",
    8550⟩,
   ⟨"Downtown Luxury Apartment",
    "Modern apartment in city center, close to restaurants and nightlife.",
    20000⟩,
   ⟨"Rustic Countryside Farmhouse",
    "Charming farmhouse with garden, ideal for families.",
    12075⟩,
   ⟨"Modern Studio Loft",
    "Stylish studio with high ceilings and city views.",
    9500⟩]

/-- Embeds `Listing.objects.get_or_create(title=..., defaults=listing_data)`:
a listing matched by title is returned untouched; otherwise a fresh listing is
inserted with the data entry and a generated identifier. -/
def getOrCreateListing (s : Store) (ld : ListingData) : Store × Listing :=
  match s.listings.find? (fun l => l.title == ld.title) with
  | some l => (s, l)
  | none =>
      let l : Listing := ⟨s.nextId, ld.title, ld.description, ld.price_per_night⟩
      ({ s with listings := s.listings ++ [l], nextId := s.nextId + 1 }, l)

/-- The loop body of `Command.create_listings`. -/
def create_listings_go : List ListingData → Store → Store × List Listing
  | [], s => (s, [])
  | ld :: rest, s =>
      let p := getOrCreateListing s ld
      let q := create_listings_go rest p.1
      (q.1, p.2 :: q.2)

/-- Embeds `Command.create_listings`. -/
def create_listings (s : Store) : Store × List Listing :=
  create_listings_go listings_data s

/-- One entry of the `bookings_data` literal: the listing and user objects
picked from the lists returned by the earlier steps, the relative dates, and
the status. -/
structure BookingData where
  listing : Listing
  user : UserRec
  start_date : Int
  end_date : Int
  status : String
  deriving Repr, DecidableEq, Inhabited

/-- The `bookings_data` literal of `Command.create_bookings`: indexes into the
listing and user lists exactly as `listings[0]`, `users[0]`, ... do, with date
offsets from `today`. -/
def bookings_data (listings : List Listing) (users : List UserRec)
    (today : Int) : List BookingData :=
  [⟨listings.getD 0 default, users.getD 0 default, today + 5, today + 8, "confirmed"⟩,
   ⟨listings.getD 1 default, users.getD 1 default, today + 10, today + 12, "pending"⟩,
   ⟨listings.getD 2 default, users.getD 0 default, today + 15, today + 18, "confirmed"⟩,
   ⟨listings.getD 0 default, users.getD 2 default, today + 20, today + 25, "pending"⟩]

/-- The body of the `Command.create_bookings` loop: compute
`nights = (end_date - start_date).days`, then
`total_price = listing.price_per_night * nights`, then
`Booking.objects.create(**booking_data)` with a generated identifier. -/
def bookingCreate (s : Store) (bd : BookingData) : Store :=
  let nights := bd.end_date - bd.start_date
  let total_price := bd.listing.price_per_night * nights
  let b : Booking := ⟨s.nextId, bd.listing.id, bd.user.id, bd.start_date,
    bd.end_date, total_price, bd.status⟩
  { s with bookings := s.bookings ++ [b], nextId := s.nextId + 1 }

/-- The loop of `Command.create_bookings`: unconditional creation, in order. -/
def create_bookings_go : List BookingData → Store → Store
  | [], s => s
  | bd :: rest, s => create_bookings_go rest (bookingCreate s bd)

/-- Embeds `Command.create_bookings`. -/
def create_bookings (s : Store) (listings : List Listing)
    (users : List UserRec) (today : Int) : Store :=
  create_bookings_go (bookings_data listings users today) s

/-- One entry of the `reviews_data` literal. -/
structure ReviewData where
  listing : Listing
  rating : Int
  comment : String
  deriving Repr, DecidableEq, Inhabited

/-- The `reviews_data` literal of `Command.create_reviews`. -/
def reviews_data (listings : List Listing) : List ReviewData :=
  [⟨listings.getD 0 default, 5,
    "Absolutely amazing! The view was breathtaking and the place was spotless."⟩,
   ⟨listings.getD 0 default, 4,
    "Great location, but could use better WiFi."⟩,
   ⟨listings.getD 1 default, 5,
    "Perfect getaway! Very peaceful and well-maintained."⟩,
   ⟨listings.getD 2 default, 4,
    "Nice place, excellent location. A bit noisy at night though."⟩,
   ⟨listings.getD 3 default, 5,
    "Loved the garden! Great for families with kids."⟩]

/-- The body of the `Command.create_reviews` loop:
`Review.objects.create(**review_data)` with a generated identifier. Note that
`objects.create` is unconditional and does not consult the declared validators. -/
def reviewCreate (s : Store) (rd : ReviewData) : Store :=
  { s with
      reviews := s.reviews ++ [⟨s.nextId, rd.listing.id, rd.rating, rd.comment⟩],
      nextId := s.nextId + 1 }

/-- The loop of `Command.create_reviews`: unconditional creation, in order. -/
def create_reviews_go : List ReviewData → Store → Store
  | [], s => s
  | rd :: rest, s => create_reviews_go rest (reviewCreate s rd)

/-- Embeds `Command.create_reviews`. -/
def create_reviews (s : Store) (listings : List Listing) : Store :=
  create_reviews_go (reviews_data listings) s

/-- Observable bulk-delete events of the clear step, used to record the order
in which `Command.handle` issues the three queryset deletes. -/
inductive DeleteEvent where
  | reviews
  | bookings
  | listings
  deriving Repr, DecidableEq

/-- Embeds `Review.objects.all().delete()`. -/
def deleteAllReviews (s : Store) : Store := { s with reviews := [] }

/-- Embeds `Booking.objects.all().delete()`. -/
def deleteAllBookings (s : Store) : Store := { s with bookings := [] }

/-- Embeds `Listing.objects.all().delete()`. -/
def deleteAllListings (s : Store) : Store := { s with listings := [] }

/-- The clear step of `Command.handle` under `options["clear"]`: the three
bulk deletes in source order, paired with the emitted event trace. -/
def clearData (s : Store) : Store × List DeleteEvent :=
  (deleteAllListings (deleteAllBookings (deleteAllReviews s)),
   [DeleteEvent.reviews, DeleteEvent.bookings, DeleteEvent.listings])

/-- Embeds `Command.handle`: optional clear, then users, listings, bookings,
reviews, in that order. `today` is the run-time value of
`timezone.now().date()`. -/
def handle (clear : Bool) (today : Int) (s : Store) : Store :=
  let s0 := if clear then (clearData s).1 else s
  let pu := create_users s0
  let pl := create_listings pu.1
  let s3 := create_bookings pl.1 pl.2 pu.2 today
  create_reviews s3 pl.2

/-! The serialization layer, `serializers.py`. -/

/-- The field set produced by `ListingSerializer` in `serializers.py`:
`["id", "title", "description", "price_per_night", "booking_count",
"review_count"]`. -/
structure SerializedListing where
  id : Nat
  title : String
  description : String
  price_per_night : Cents
  booking_count : Nat
  review_count : Nat
  deriving Repr, DecidableEq

/-- Embeds `ListingSerializer.get_booking_count`: `obj.bookings.count()`, a
live count of the Booking rows whose foreign key references `obj`. -/
def get_booking_count (s : Store) (obj : Listing) : Nat :=
  (s.bookings.filter (fun b => b.listing_id == obj.id)).length

/-- Embeds `ListingSerializer.get_review_count`: `obj.reviews.count()`. -/
def get_review_count (s : Store) (obj : Listing) : Nat :=
  (s.reviews.filter (fun r => r.listing_id == obj.id)).length

/-- Embeds `ListingSerializer`: the declared model fields plus the two
SerializerMethodField counters, computed against the current store. -/
def ListingSerializer (s : Store) (obj : Listing) : SerializedListing :=
  ⟨obj.id, obj.title, obj.description, obj.price_per_night,
   get_booking_count s obj, get_review_count s obj⟩

/-- The field set produced by `BookingSerializer` in `serializers.py`, with
`listing` and `user` rendered by `StringRelatedField` as strings. -/
structure SerializedBooking where
  booking_id : Nat
  listing : String
  user : String
  start_date : Int
  end_date : Int
  total_price : Cents
  status : String
  deriving Repr, DecidableEq

/-- Embeds `BookingSerializer`: `StringRelatedField` replaces each foreign key
with the string form of the referenced record (`Listing.__str__`, the user
string form). -/
def BookingSerializer (s : Store) (b : Booking) : SerializedBooking :=
  ⟨b.booking_id,
   ((s.listings.find? (fun l => l.id == b.listing_id)).map Listing.str).getD "",
   ((s.users.find? (fun u => u.id == b.user_id)).map UserRec.str).getD "",
   b.start_date, b.end_date, b.total_price, b.status⟩

/-! The route table, `urls.py`. -/

/-- A segment of a URL pattern: a literal piece, or a typed parameter
`<converter:name>`. -/
inductive PathSeg where
  | lit : String → PathSeg
  | param : String → String → PathSeg
  deriving Repr, DecidableEq

/-- A `path(pattern, view, name=...)` entry. -/
structure Route where
  pattern : List PathSeg
  name : String
  deriving Repr, DecidableEq

/-- The `app_name` namespace declared in `urls.py`. -/
def app_name : String := "listings"

/-- The `urlpatterns` list of `urls.py`: patterns `""`, `"<int:id>/"`,
`"create/"`, `"<int:id>/update/"`, `"<int:id>/delete/"`. -/
def urlpatterns : List Route :=
  [⟨[], "list"⟩,
   ⟨[PathSeg.param "int" "id", PathSeg.lit "/"], "detail"⟩,
   ⟨[PathSeg.lit "create/"], "create"⟩,
   ⟨[PathSeg.param "int" "id", PathSeg.lit "/update/"], "update"⟩,
   ⟨[PathSeg.param "int" "id", PathSeg.lit "/delete/"], "delete"⟩]

/-- Renders a pattern with converters erased, parameters shown as `<name>`. -/
def renderSeg : PathSeg → String
  | PathSeg.lit s => s
  | PathSeg.param _ n => "<" ++ n ++ ">"

/-- Renders a whole pattern with converters erased. -/
def renderPath (p : List PathSeg) : String :=
  p.foldl (fun acc seg => acc ++ renderSeg seg) ""

/-- The converters of the typed parameters of a route, in order. -/
def routeConverters (r : Route) : List String :=
  r.pattern.filterMap (fun seg =>
    match seg with
    | PathSeg.param c _ => some c
    | _ => none)

/-- Field kinds relevant to the identifier-type mismatch noted in the spec. -/
inductive FieldKind where
  | uuid
  | int
  deriving Repr, DecidableEq

/-- The kind of the Listing primary key in `models.py`:
`id = models.UUIDField(primary_key=True, default=uuid.uuid4, editable=False)`. -/
def listingPrimaryKeyKind : FieldKind := FieldKind.uuid

/-- The seeding pipeline of `Command.handle` after the optional clear step:
users, then listings, then bookings, then reviews. -/
def seedPipeline (today : Int) (s0 : Store) : Store :=
  create_reviews
    (create_bookings (create_listings (create_users s0).1).1
      (create_listings (create_users s0).1).2 (create_users s0).2 today)
    (create_listings (create_users s0).1).2

/-- Two listings sharing one title but with distinct identifiers, each
referenced by one booking: exhibits that the serialized form of a booking does
not determine the listing foreign key. -/
def twinStore : Store :=
  { users := [⟨0, "john_doe", "john@example.com", "password123"⟩],
    listings := [⟨1, "Twin Villa", "first", 10000⟩, ⟨2, "Twin Villa", "second", 20000⟩],
    bookings := [⟨3, 1, 0, 5, 8, 30000, "pending"⟩, ⟨4, 2, 0, 5, 8, 60000, "pending"⟩],
    reviews := [],
    nextId := 5 }

/-- The booking of `twinStore` referencing listing 1. -/
def twinBooking1 : Booking := ⟨3, 1, 0, 5, 8, 30000, "pending"⟩

/-- The booking of `twinStore` referencing listing 2, with the same dates and
total price, so that only the foreign key differs. -/
def twinBooking2 : Booking := ⟨4, 2, 0, 5, 8, 30000, "pending"⟩

/-! Frame and shape lemmas about the seed steps, shared by the claim proofs. -/

theorem getOrCreateUser_listings (s : Store) (n e : String) :
    (getOrCreateUser s n e).1.listings = s.listings := by
  unfold getOrCreateUser
  cases s.users.find? (fun u => u.username == n) <;> rfl

theorem getOrCreateUser_bookings (s : Store) (n e : String) :
    (getOrCreateUser s n e).1.bookings = s.bookings := by
  unfold getOrCreateUser
  cases s.users.find? (fun u => u.username == n) <;> rfl

theorem getOrCreateUser_reviews (s : Store) (n e : String) :
    (getOrCreateUser s n e).1.reviews = s.reviews := by
  unfold getOrCreateUser
  cases s.users.find? (fun u => u.username == n) <;> rfl

theorem create_users_go_listings (data : List (String × String)) (s : Store) :
    (create_users_go data s).1.listings = s.listings := by
  induction data generalizing s with
  | nil => rfl
  | cons d rest ih =>
      cases d with
      | mk n e => simp [create_users_go, ih, getOrCreateUser_listings]

theorem create_users_go_bookings (data : List (String × String)) (s : Store) :
    (create_users_go data s).1.bookings = s.bookings := by
  induction data generalizing s with
  | nil => rfl
  | cons d rest ih =>
      cases d with
      | mk n e => simp [create_users_go, ih, getOrCreateUser_bookings]

theorem create_users_go_reviews (data : List (String × String)) (s : Store) :
    (create_users_go data s).1.reviews = s.reviews := by
  induction data generalizing s with
  | nil => rfl
  | cons d rest ih =>
      cases d with
      | mk n e => simp [create_users_go, ih, getOrCreateUser_reviews]

theorem getOrCreateListing_users (s : Store) (ld : ListingData) :
    (getOrCreateListing s ld).1.users = s.users := by
  unfold getOrCreateListing
  cases s.listings.find? (fun l => l.title == ld.title) <;> rfl

theorem getOrCreateListing_bookings (s : Store) (ld : ListingData) :
    (getOrCreateListing s ld).1.bookings = s.bookings := by
  unfold getOrCreateListing
  cases s.listings.find? (fun l => l.title == ld.title) <;> rfl

theorem getOrCreateListing_reviews (s : Store) (ld : ListingData) :
    (getOrCreateListing s ld).1.reviews = s.reviews := by
  unfold getOrCreateListing
  cases s.listings.find? (fun l => l.title == ld.title) <;> rfl

theorem create_listings_go_users (data : List ListingData) (s : Store) :
    (create_listings_go data s).1.users = s.users := by
  induction data generalizing s with
  | nil => rfl
  | cons d rest ih => simp [create_listings_go, ih, getOrCreateListing_users]

theorem create_listings_go_bookings (data : List ListingData) (s : Store) :
    (create_listings_go data s).1.bookings = s.bookings := by
  induction data generalizing s with
  | nil => rfl
  | cons d rest ih => simp [create_listings_go, ih, getOrCreateListing_bookings]

theorem create_listings_go_reviews (data : List ListingData) (s : Store) :
    (create_listings_go data s).1.reviews = s.reviews := by
  induction data generalizing s with
  | nil => rfl
  | cons d rest ih => simp [create_listings_go, ih, getOrCreateListing_reviews]

theorem create_bookings_go_users (data : List BookingData) (s : Store) :
    (create_bookings_go data s).users = s.users := by
  induction data generalizing s with
  | nil => rfl
  | cons d rest ih => simp [create_bookings_go, ih, bookingCreate]

theorem create_bookings_go_listings (data : List BookingData) (s : Store) :
    (create_bookings_go data s).listings = s.listings := by
  induction data generalizing s with
  | nil => rfl
  | cons d rest ih => simp [create_bookings_go, ih, bookingCreate]

theorem create_bookings_go_reviews (data : List BookingData) (s : Store) :
    (create_bookings_go data s).reviews = s.reviews := by
  induction data generalizing s with
  | nil => rfl
  | cons d rest ih => simp [create_bookings_go, ih, bookingCreate]

theorem create_bookings_go_len (data : List BookingData) (s : Store) :
    (create_bookings_go data s).bookings.length = s.bookings.length + data.length := by
  induction data generalizing s with
  | nil => rfl
  | cons d rest ih =>
      simp [create_bookings_go, ih, bookingCreate]
      omega

theorem create_reviews_go_users (data : List ReviewData) (s : Store) :
    (create_reviews_go data s).users = s.users := by
  induction data generalizing s with
  | nil => rfl
  | cons d rest ih => simp [create_reviews_go, ih, reviewCreate]

theorem create_reviews_go_listings (data : List ReviewData) (s : Store) :
    (create_reviews_go data s).listings = s.listings := by
  induction data generalizing s with
  | nil => rfl
  | cons d rest ih => simp [create_reviews_go, ih, reviewCreate]

theorem create_reviews_go_bookings (data : List ReviewData) (s : Store) :
    (create_reviews_go data s).bookings = s.bookings := by
  induction data generalizing s with
  | nil => rfl
  | cons d rest ih => simp [create_reviews_go, ih, reviewCreate]

theorem create_reviews_go_len (data : List ReviewData) (s : Store) :
    (create_reviews_go data s).reviews.length = s.reviews.length + data.length := by
  induction data generalizing s with
  | nil => rfl
  | cons d rest ih =>
      simp [create_reviews_go, ih, reviewCreate]
      omega

theorem getOrCreateUser_noop (s : Store) (n e : String)
    (h : ∃ u ∈ s.users, u.username = n) : (getOrCreateUser s n e).1 = s := by
  unfold getOrCreateUser
  cases hf : s.users.find? (fun u => u.username == n) with
  | some u => rfl
  | none =>
      exfalso
      obtain ⟨u, hu, ht⟩ := h
      have := List.find?_eq_none.mp hf u hu
      simp [ht] at this

theorem getOrCreateUser_new (s : Store) (n e : String)
    (h : ∀ u ∈ s.users, u.username ≠ n) :
    (getOrCreateUser s n e).1.users = s.users ++ [⟨s.nextId, n, e, "password123"⟩] := by
  unfold getOrCreateUser
  cases hf : s.users.find? (fun u => u.username == n) with
  | some u =>
      exfalso
      exact h u (List.mem_of_find?_eq_some hf) (by simpa using List.find?_some hf)
  | none => rfl

theorem getOrCreateUser_mem (s : Store) (n e : String) {x : UserRec}
    (h : x ∈ s.users) : x ∈ (getOrCreateUser s n e).1.users := by
  unfold getOrCreateUser
  cases s.users.find? (fun u => u.username == n) with
  | some u => exact h
  | none => exact List.mem_append_left _ h

theorem getOrCreateUser_self (s : Store) (n e : String) :
    (getOrCreateUser s n e).2 ∈ (getOrCreateUser s n e).1.users ∧
      ((getOrCreateUser s n e).2).username = n := by
  unfold getOrCreateUser
  cases hf : s.users.find? (fun u => u.username == n) with
  | some u =>
      exact ⟨List.mem_of_find?_eq_some hf, by simpa using List.find?_some hf⟩
  | none =>
      exact ⟨List.mem_append_right _ (List.mem_singleton.mpr rfl), rfl⟩

theorem create_users_go_noop (data : List (String × String)) (s : Store)
    (h : ∀ d ∈ data, ∃ u ∈ s.users, u.username = d.1) :
    (create_users_go data s).1 = s := by
  induction data with
  | nil => rfl
  | cons d rest ih =>
      cases d with
      | mk n e =>
          have h1 : (getOrCreateUser s n e).1 = s :=
            getOrCreateUser_noop s n e (h (n, e) (List.mem_cons_self _ _))
          simp only [create_users_go, h1]
          exact ih fun d hd => h d (List.mem_cons_of_mem _ hd)

theorem create_users_go_mem (data : List (String × String)) (s : Store)
    {x : UserRec} (h : x ∈ s.users) : x ∈ (create_users_go data s).1.users := by
  induction data generalizing s with
  | nil => exact h
  | cons d rest ih =>
      cases d with
      | mk n e => exact ih _ (getOrCreateUser_mem s n e h)

theorem create_users_go_usernames (data : List (String × String)) (s : Store) :
    ∀ d ∈ data, ∃ u ∈ (create_users_go data s).1.users, u.username = d.1 := by
  induction data generalizing s with
  | nil => intro d hd; cases hd
  | cons d0 rest ih =>
      intro d hd
      cases d0 with
      | mk n e =>
          rcases List.mem_cons.mp hd with heq | hmem
          · subst heq
            refine ⟨(getOrCreateUser s n e).2, ?_, (getOrCreateUser_self s n e).2⟩
            exact create_users_go_mem rest _ (getOrCreateUser_self s n e).1
          · exact ih _ d hmem

theorem getOrCreateListing_noop (s : Store) (ld : ListingData)
    (h : ∃ l ∈ s.listings, l.title = ld.title) : (getOrCreateListing s ld).1 = s := by
  unfold getOrCreateListing
  cases hf : s.listings.find? (fun l => l.title == ld.title) with
  | some l => rfl
  | none =>
      exfalso
      obtain ⟨l, hl, ht⟩ := h
      have := List.find?_eq_none.mp hf l hl
      simp [ht] at this

theorem getOrCreateListing_new (s : Store) (ld : ListingData)
    (h : ∀ l ∈ s.listings, l.title ≠ ld.title) :
    (getOrCreateListing s ld).1.listings =
      s.listings ++ [⟨s.nextId, ld.title, ld.description, ld.price_per_night⟩] := by
  unfold getOrCreateListing
  cases hf : s.listings.find? (fun l => l.title == ld.title) with
  | some l =>
      exfalso
      exact h l (List.mem_of_find?_eq_some hf) (by simpa using List.find?_some hf)
  | none => rfl

theorem getOrCreateListing_mem (s : Store) (ld : ListingData) {x : Listing}
    (h : x ∈ s.listings) : x ∈ (getOrCreateListing s ld).1.listings := by
  unfold getOrCreateListing
  cases s.listings.find? (fun l => l.title == ld.title) with
  | some l => exact h
  | none => exact List.mem_append_left _ h

theorem getOrCreateListing_self (s : Store) (ld : ListingData) :
    (getOrCreateListing s ld).2 ∈ (getOrCreateListing s ld).1.listings ∧
      ((getOrCreateListing s ld).2).title = ld.title := by
  unfold getOrCreateListing
  cases hf : s.listings.find? (fun l => l.title == ld.title) with
  | some l =>
      exact ⟨List.mem_of_find?_eq_some hf, by simpa using List.find?_some hf⟩
  | none =>
      exact ⟨List.mem_append_right _ (List.mem_singleton.mpr rfl), rfl⟩

theorem create_listings_go_noop (data : List ListingData) (s : Store)
    (h : ∀ ld ∈ data, ∃ l ∈ s.listings, l.title = ld.title) :
    (create_listings_go data s).1 = s := by
  induction data with
  | nil => rfl
  | cons d rest ih =>
      have h1 : (getOrCreateListing s d).1 = s :=
        getOrCreateListing_noop s d (h d (List.mem_cons_self _ _))
      simp only [create_listings_go, h1]
      exact ih fun ld hld => h ld (List.mem_cons_of_mem _ hld)

theorem create_listings_go_mem (data : List ListingData) (s : Store)
    {x : Listing} (h : x ∈ s.listings) : x ∈ (create_listings_go data s).1.listings := by
  induction data generalizing s with
  | nil => exact h
  | cons d rest ih => exact ih _ (getOrCreateListing_mem s d h)

theorem create_listings_go_titles (data : List ListingData) (s : Store) :
    ∀ ld ∈ data, ∃ l ∈ (create_listings_go data s).1.listings, l.title = ld.title := by
  induction data generalizing s with
  | nil => intro ld hld; cases hld
  | cons d0 rest ih =>
      intro ld hld
      rcases List.mem_cons.mp hld with heq | hmem
      · subst heq
        refine ⟨(getOrCreateListing s ld).2, ?_, (getOrCreateListing_self s ld).2⟩
        exact create_listings_go_mem rest _ (getOrCreateListing_self s ld).1
      · exact ih _ ld hmem

theorem create_listings_go_result_mem (data : List ListingData) (s : Store) :
    ∀ l ∈ (create_listings_go data s).2, l ∈ (create_listings_go data s).1.listings := by
  induction data generalizing s with
  | nil => intro l hl; cases hl
  | cons d rest ih =>
      intro l hl
      simp only [create_listings_go] at hl ⊢
      rcases List.mem_cons.mp hl with heq | hmem
      · subst heq
        exact create_listings_go_mem rest _ (getOrCreateListing_self s d).1
      · exact ih _ l hmem

theorem create_listings_go_len (data : List ListingData) (s : Store) :
    (create_listings_go data s).2.length = data.length := by
  induction data generalizing s with
  | nil => rfl
  | cons d rest ih => simp [create_listings_go, ih]

theorem handle_false_pipeline (t : Int) (s : Store) :
    handle false t s = seedPipeline t s := rfl

theorem handle_true_pipeline (t : Int) (s : Store) :
    handle true t s = seedPipeline t (clearData s).1 := rfl

theorem seedPipeline_users (t : Int) (s0 : Store) :
    (seedPipeline t s0).users = (create_users_go users_data s0).1.users := by
  unfold seedPipeline create_reviews create_bookings create_listings create_users
  rw [create_reviews_go_users, create_bookings_go_users, create_listings_go_users]

theorem seedPipeline_listings (t : Int) (s0 : Store) :
    (seedPipeline t s0).listings =
      (create_listings_go listings_data (create_users_go users_data s0).1).1.listings := by
  unfold seedPipeline create_reviews create_bookings create_listings create_users
  rw [create_reviews_go_listings, create_bookings_go_listings]

theorem seedPipeline_bookings (t : Int) (s0 : Store) :
    (seedPipeline t s0).bookings =
      (create_bookings_go
        (bookings_data (create_listings_go listings_data (create_users_go users_data s0).1).2
          (create_users_go users_data s0).2 t)
        (create_listings_go listings_data (create_users_go users_data s0).1).1).bookings := by
  unfold seedPipeline create_reviews create_bookings create_listings create_users
  rw [create_reviews_go_bookings]

theorem seedPipeline_bookings_len (t : Int) (s0 : Store) :
    (seedPipeline t s0).bookings.length = s0.bookings.length + 4 := by
  rw [seedPipeline_bookings, create_bookings_go_len, create_listings_go_bookings,
    create_users_go_bookings]
  rfl

theorem seedPipeline_reviews_len (t : Int) (s0 : Store) :
    (seedPipeline t s0).reviews.length = s0.reviews.length + 5 := by
  unfold seedPipeline create_reviews create_bookings create_listings create_users
  rw [create_reviews_go_len, create_bookings_go_reviews, create_listings_go_reviews,
    create_users_go_reviews]
  rfl

theorem create_bookings_go_mem_pres (data : List BookingData) (s : Store)
    {x : Booking} (h : x ∈ s.bookings) : x ∈ (create_bookings_go data s).bookings := by
  induction data generalizing s with
  | nil => exact h
  | cons bd rest ih =>
      exact ih _ (by simp [bookingCreate]; exact Or.inl h)

theorem bookingCreate_mem (s : Store) (bd : BookingData) :
    (⟨s.nextId, bd.listing.id, bd.user.id, bd.start_date, bd.end_date,
      bd.listing.price_per_night * (bd.end_date - bd.start_date), bd.status⟩ : Booking) ∈
      (bookingCreate s bd).bookings := by
  simp [bookingCreate]

theorem create_bookings_go_chara (data : List BookingData) (s : Store) :
    ∀ b ∈ (create_bookings_go data s).bookings,
      b ∈ s.bookings ∨
      ∃ bd ∈ data, b.listing_id = bd.listing.id ∧
        b.total_price = bd.listing.price_per_night * (b.end_date - b.start_date) := by
  induction data generalizing s with
  | nil => exact fun b hb => Or.inl hb
  | cons bd rest ih =>
      intro b hb
      rcases ih (bookingCreate s bd) b hb with hmem | ⟨bd', hbd', hfacts⟩
      · simp only [bookingCreate, List.mem_append, List.mem_singleton] at hmem
        rcases hmem with hold | hnew
        · exact Or.inl hold
        · subst hnew
          exact Or.inr ⟨bd, List.mem_cons_self _ _, rfl, rfl⟩
      · exact Or.inr ⟨bd', List.mem_cons_of_mem _ hbd', hfacts⟩

theorem seed_users_concrete :
    (create_users_go users_data emptyStore).1.users =
      [⟨0, "john_doe", "john@example.com", "password123"⟩,
       ⟨1, "jane_smith", "jane@example.com", "password123"⟩,
       ⟨2, "bob_wilson", "bob@example.com", "password123"⟩] := rfl

theorem seed_listings_concrete :
    (create_listings_go listings_data (create_users_go users_data emptyStore).1).1.listings =
      [⟨3, "Cozy Beachfront Villa",
        "Beautiful villa with ocean view, 3 bedrooms, fully equipped kitchen.", 15000⟩,
       ⟨4, "Mountain Cabin Retreat",
        "Peaceful cabin in the mountains, perfect for hiking enthusiasts.", 8550⟩,
       ⟨5, "Downtown Luxury Apartment",
        "Modern apartment in city center, close to restaurants and nightlife.", 20000⟩,
       ⟨6, "Rustic Countryside Farmhouse",
        "Charming farmhouse with garden, ideal for families.", 12075⟩,
       ⟨7, "Modern Studio Loft",
        "Stylish studio with high ceilings and city views.", 9500⟩] := rfl

/-- C5: from an empty store, running the seed command twice without the clear
flag leaves the users and listings of the first run unchanged, 3 users and 5
listings, while the booking and review tables grow to 8 and 10 records,
booking and review creation being unconditional rather than get-or-create. -/
theorem seed_twice_counts (t1 t2 : Int) :
    (handle false t2 (handle false t1 emptyStore)).users =
      (handle false t1 emptyStore).users ∧
    (handle false t2 (handle false t1 emptyStore)).listings =
      (handle false t1 emptyStore).listings ∧
    (handle false t2 (handle false t1 emptyStore)).users.length = 3 ∧
    (handle false t2 (handle false t1 emptyStore)).listings.length = 5 ∧
    (handle false t2 (handle false t1 emptyStore)).bookings.length = 8 ∧
    (handle false t2 (handle false t1 emptyStore)).reviews.length = 10 := by
  have hu1 : (handle false t1 emptyStore).users =
      [⟨0, "john_doe", "john@example.com", "password123"⟩,
       ⟨1, "jane_smith", "jane@example.com", "password123"⟩,
       ⟨2, "bob_wilson", "bob@example.com", "password123"⟩] := by
    rw [handle_false_pipeline, seedPipeline_users, seed_users_concrete]
  have hnoop : (create_users_go users_data (handle false t1 emptyStore)).1 =
      handle false t1 emptyStore := by
    refine create_users_go_noop users_data _ ?_
    rw [hu1]; decide
  have hl1 : (handle false t1 emptyStore).listings =
      (create_listings_go listings_data
        (create_users_go users_data emptyStore).1).1.listings := by
    rw [handle_false_pipeline, seedPipeline_listings]
  have htitles : ∀ ld ∈ listings_data,
      ∃ l ∈ (handle false t1 emptyStore).listings, l.title = ld.title := by
    rw [hl1, seed_listings_concrete]; decide
  have hlnoop : (create_listings_go listings_data
      (create_users_go users_data (handle false t1 emptyStore)).1).1 =
      (create_users_go users_data (handle false t1 emptyStore)).1 := by
    refine create_listings_go_noop listings_data _ ?_
    rw [show (create_users_go users_data (handle false t1 emptyStore)).1.listings =
        (handle false t1 emptyStore).listings from create_users_go_listings _ _]
    exact htitles
  have husers : (handle false t2 (handle false t1 emptyStore)).users =
      (handle false t1 emptyStore).users := by
    rw [handle_false_pipeline, seedPipeline_users, hnoop]
  have hlists : (handle false t2 (handle false t1 emptyStore)).listings =
      (handle false t1 emptyStore).listings := by
    rw [handle_false_pipeline, seedPipeline_listings, hlnoop]
    exact create_users_go_listings _ _
  refine ⟨husers, hlists, ?_, ?_, ?_, ?_⟩
  · rw [husers, hu1]; rfl
  · rw [hlists, hl1, seed_listings_concrete]; rfl
  · rw [handle_false_pipeline t2, seedPipeline_bookings_len,
      handle_false_pipeline t1, seedPipeline_bookings_len]
    rfl
  · rw [handle_false_pipeline t2, seedPipeline_reviews_len,
      handle_false_pipeline t1, seedPipeline_reviews_len]
    rfl

/-- C2: a second run of the seed command without the clear flag, started from
any state produced by a first run, leaves the listing table exactly as the
first run left it, so in particular it creates no new Listing whose title
equals the title of an existing one: listing creation is get-or-create keyed
by title. -/
theorem seed_rerun_listings_unchanged (c : Bool) (t t2 : Int) (s0 : Store) :
    (handle false t2 (handle c t s0)).listings = (handle c t s0).listings := by
  have htitles : ∀ ld ∈ listings_data,
      ∃ l ∈ (handle c t s0).listings, l.title = ld.title := by
    cases c
    · rw [handle_false_pipeline, seedPipeline_listings]
      exact create_listings_go_titles listings_data _
    · rw [handle_true_pipeline, seedPipeline_listings]
      exact create_listings_go_titles listings_data _
  rw [handle_false_pipeline, seedPipeline_listings]
  have hlnoop : (create_listings_go listings_data
      (create_users_go users_data (handle c t s0)).1).1 =
      (create_users_go users_data (handle c t s0)).1 := by
    refine create_listings_go_noop listings_data _ ?_
    rw [show (create_users_go users_data (handle c t s0)).1.listings =
        (handle c t s0).listings from create_users_go_listings _ _]
    exact htitles
  rw [hlnoop]
  exact create_users_go_listings _ _

theorem bookings_data_listing_mem (ls : List Listing) (us : List UserRec)
    (t : Int) (h5 : ls.length = 5) : ∀ bd ∈ bookings_data ls us t, bd.listing ∈ ls := by
  intro bd hbd
  have h0 : ls.getD 0 default ∈ ls := by
    rw [List.getD_eq_getElem ls default (by omega)]; exact List.getElem_mem _
  have h1 : ls.getD 1 default ∈ ls := by
    rw [List.getD_eq_getElem ls default (by omega)]; exact List.getElem_mem _
  have h2 : ls.getD 2 default ∈ ls := by
    rw [List.getD_eq_getElem ls default (by omega)]; exact List.getElem_mem _
  simp only [bookings_data, List.mem_cons, List.not_mem_nil, or_false] at hbd
  rcases hbd with h | h | h | h <;> subst h
  · exact h0
  · exact h1
  · exact h2
  · exact h0

/-- C10: a record matched as already existing by a get-or-create step of the
seed command is left entirely unchanged: a user matched by username keeps its
email and password, and a listing matched by title keeps its description and
nightly price; the default password is assigned only on the newly-created
branch. -/
theorem get_or_create_preserves_existing (s : Store) (n e : String) (ld : ListingData) :
    ((∃ u ∈ s.users, u.username = n) → (getOrCreateUser s n e).1 = s) ∧
    ((∀ u ∈ s.users, u.username ≠ n) →
      (getOrCreateUser s n e).1.users = s.users ++ [⟨s.nextId, n, e, "password123"⟩]) ∧
    ((∃ l ∈ s.listings, l.title = ld.title) → (getOrCreateListing s ld).1 = s) ∧
    ((∀ l ∈ s.listings, l.title ≠ ld.title) →
      (getOrCreateListing s ld).1.listings =
        s.listings ++ [⟨s.nextId, ld.title, ld.description, ld.price_per_night⟩]) :=
  ⟨getOrCreateUser_noop s n e, getOrCreateUser_new s n e,
   getOrCreateListing_noop s ld, getOrCreateListing_new s ld⟩

/-- Closed instance of the C10 theorem: on a store containing the user
john_doe, get-or-create with a different email changes nothing, and a listing
with an unseen title is appended with the fresh identifier. -/
theorem get_or_create_preserves_existing_witness :
    (getOrCreateUser twinStore "john_doe" "changed@example.com").1 = twinStore ∧
    (getOrCreateListing twinStore ⟨"Brand New Cottage", "small", 100⟩).1.listings =
      twinStore.listings ++ [⟨twinStore.nextId, "Brand New Cottage", "small", 100⟩] := by
  refine ⟨(get_or_create_preserves_existing twinStore "john_doe" "changed@example.com"
      ⟨"Brand New Cottage", "small", 100⟩).1 ?_,
    (get_or_create_preserves_existing twinStore "john_doe" "changed@example.com"
      ⟨"Brand New Cottage", "small", 100⟩).2.2.2 ?_⟩
  · decide
  · decide

/-- C4: the clear step of the seed command deletes all Review records, then
all Booking records, then all Listing records, in that exact order, and leaves
the set of Users unchanged. -/
theorem clear_step_order_and_frame (s : Store) :
    (clearData s).2 = [DeleteEvent.reviews, DeleteEvent.bookings, DeleteEvent.listings] ∧
    (clearData s).1.reviews = [] ∧
    (clearData s).1.bookings = [] ∧
    (clearData s).1.listings = [] ∧
    (clearData s).1.users = s.users := by
  refine ⟨rfl, rfl, rfl, rfl, rfl⟩

/-- C9: the route table declares exactly five named routes list, detail,
create, update, delete with patterns (converters erased) of the stated shapes
under the listings namespace; detail, update and delete type the id parameter
with the int converter while the Listing primary key is a UUID field. -/
theorem route_table_shape :
    app_name = "listings" ∧
    urlpatterns.length = 5 ∧
    urlpatterns.map Route.name = ["list", "detail", "create", "update", "delete"] ∧
    urlpatterns.map (fun r => renderPath r.pattern) =
      ["", "<id>/", "create/", "<id>/update/", "<id>/delete/"] ∧
    routeConverters (urlpatterns.getD 1 ⟨[], ""⟩) = ["int"] ∧
    routeConverters (urlpatterns.getD 3 ⟨[], ""⟩) = ["int"] ∧
    routeConverters (urlpatterns.getD 4 ⟨[], ""⟩) = ["int"] ∧
    routeConverters (urlpatterns.getD 0 ⟨[], ""⟩) = [] ∧
    routeConverters (urlpatterns.getD 2 ⟨[], ""⟩) = [] ∧
    listingPrimaryKeyKind = FieldKind.uuid := by
  decide

/-- C3: persisting a Review through the validating path succeeds and stores the
record exactly when the rating lies in the closed interval from one to five,
and fails with a ValidationError storing nothing otherwise. -/
theorem review_rating_validation (s : Store) (lid : Nat) (r : Int) (c : String) :
    if 1 ≤ r ∧ r ≤ 5 then
      reviewFullCleanCreate s lid r c = Except.ok { s with
        reviews := s.reviews ++ [⟨s.nextId, lid, r, c⟩],
        nextId := s.nextId + 1 }
    else
      reviewFullCleanCreate s lid r c = Except.error "ValidationError" := by
  by_cases h : 1 ≤ r ∧ r ≤ 5
  · simp only [if_pos h, reviewFullCleanCreate, ratingValidatorsPass,
      minValueValidator, maxValueValidator, if_pos]
    rw [if_pos]
    simp [h.1, h.2]
  · simp only [if_neg h, reviewFullCleanCreate, ratingValidatorsPass,
      minValueValidator, maxValueValidator]
    rw [if_neg]
    simp only [Bool.and_eq_true, decide_eq_true_eq]
    exact fun hc => h ⟨hc.1, hc.2⟩

/-- C7: serializing a Listing yields exactly the identifier, title,
description, nightly price and the two derived counters, where the booking
counter equals the number of Booking records whose foreign key references the
listing and the review counter equals the number of Review records referencing
it, both counted against the store passed at serialization time; adding a
referencing record to the store changes the next serialization, so nothing is
cached. -/
theorem listing_serialization_fields_and_counts (s : Store) (l : Listing)
    (b : Booking) (r : Review) :
    ListingSerializer s l =
      ⟨l.id, l.title, l.description, l.price_per_night,
        s.bookings.countP (fun x => x.listing_id == l.id),
        s.reviews.countP (fun x => x.listing_id == l.id)⟩ ∧
    (b.listing_id = l.id →
      (ListingSerializer { s with bookings := s.bookings ++ [b] } l).booking_count =
        (ListingSerializer s l).booking_count + 1) ∧
    (r.listing_id = l.id →
      (ListingSerializer { s with reviews := s.reviews ++ [r] } l).review_count =
        (ListingSerializer s l).review_count + 1) := by
  refine ⟨?_, ?_, ?_⟩
  · simp [ListingSerializer, get_booking_count, get_review_count,
      List.countP_eq_length_filter]
  · intro hb
    simp [ListingSerializer, get_booking_count, List.filter_append, hb]
  · intro hr
    simp [ListingSerializer, get_review_count, List.filter_append, hr]

/-- Closed instance of the C7 theorem at a concrete store, listing, booking
and review, discharging the two foreign-key hypotheses by computation. -/
theorem listing_serialization_fields_and_counts_witness :
    (ListingSerializer { twinStore with
        bookings := twinStore.bookings ++ [⟨9, 1, 0, 0, 1, 10000, "pending"⟩] }
        ⟨1, "Twin Villa", "first", 10000⟩).booking_count =
      (ListingSerializer twinStore ⟨1, "Twin Villa", "first", 10000⟩).booking_count + 1 :=
  (listing_serialization_fields_and_counts twinStore ⟨1, "Twin Villa", "first", 10000⟩
    ⟨9, 1, 0, 0, 1, 10000, "pending"⟩ ⟨9, 1, 5, "ok"⟩).2.1 rfl

/-- C8: serializing a Booking renders the listing foreign key as the string
form of the referenced listing, which is its title, and the user foreign key
as the string form of the user, which is its username; the rendering is lossy,
witnessed by two bookings of `twinStore` referencing different listings whose
serialized listing and user fields coincide. -/
theorem booking_serialization_stringifies (s : Store) (b : Booking) :
    (BookingSerializer s b) =
      ⟨b.booking_id,
        ((s.listings.find? (fun l => l.id == b.listing_id)).map Listing.str).getD "",
        ((s.users.find? (fun u => u.id == b.user_id)).map UserRec.str).getD "",
        b.start_date, b.end_date, b.total_price, b.status⟩ ∧
    Listing.str = (fun l => l.title) ∧
    UserRec.str = (fun u => u.username) ∧
    (twinBooking1.listing_id ≠ twinBooking2.listing_id ∧
      (BookingSerializer twinStore twinBooking1).listing =
        (BookingSerializer twinStore twinBooking2).listing ∧
      (BookingSerializer twinStore twinBooking1).user =
        (BookingSerializer twinStore twinBooking2).user) := by
  exact ⟨rfl, rfl, rfl, by decide, by decide, by decide⟩

theorem create_bookings_go_cons (bd : BookingData) (rest : List BookingData)
    (s : Store) :
    create_bookings_go (bd :: rest) s = create_bookings_go rest (bookingCreate s bd) := rfl

/-- C6: seeding an empty store creates a booking for the listing titled Cozy
Beachfront Villa, whose nightly price is 150.00, running from today plus 5
days to today plus 8 days, with stored total price exactly 450.00 and status
confirmed. -/
theorem seed_villa_booking (today : Int) :
    ∃ l ∈ (handle false today emptyStore).listings,
      ∃ b ∈ (handle false today emptyStore).bookings,
        l.title = "Cozy Beachfront Villa" ∧ l.price_per_night = 15000 ∧
        b.listing_id = l.id ∧ b.start_date = today + 5 ∧ b.end_date = today + 8 ∧
        b.total_price = 45000 ∧ b.status = "confirmed" := by
  refine ⟨⟨3, "Cozy Beachfront Villa",
      "Beautiful villa with ocean view, 3 bedrooms, fully equipped kitchen.", 15000⟩, ?_,
    ⟨8, 3, 0, today + 5, today + 8, 15000 * (today + 8 - (today + 5)), "confirmed"⟩, ?_,
    rfl, rfl, rfl, rfl, rfl, ?_, rfl⟩
  · rw [handle_false_pipeline, seedPipeline_listings, seed_listings_concrete]
    decide
  · rw [handle_false_pipeline, seedPipeline_bookings]
    have hdata : bookings_data
        (create_listings_go listings_data (create_users_go users_data emptyStore).1).2
        (create_users_go users_data emptyStore).2 today =
        (⟨⟨3, "Cozy Beachfront Villa",
            "Beautiful villa with ocean view, 3 bedrooms, fully equipped kitchen.", 15000⟩,
          ⟨0, "john_doe", "john@example.com", "password123"⟩,
          today + 5, today + 8, "confirmed"⟩ : BookingData) ::
        [⟨⟨4, "Mountain Cabin Retreat",
            "Peaceful cabin in the mountains, perfect for hiking enthusiasts.", 8550⟩,
          ⟨1, "jane_smith", "jane@example.com", "password123"⟩,
          today + 10, today + 12, "pending"⟩,
         ⟨⟨5, "Downtown Luxury Apartment",
            "Modern apartment in city center, close to restaurants and nightlife.", 20000⟩,
          ⟨0, "john_doe", "john@example.com", "password123"⟩,
          today + 15, today + 18, "confirmed"⟩,
         ⟨⟨3, "Cozy Beachfront Villa",
            "Beautiful villa with ocean view, 3 bedrooms, fully equipped kitchen.", 15000⟩,
          ⟨2, "bob_wilson", "bob@example.com", "password123"⟩,
          today + 20, today + 25, "pending"⟩] := rfl
    rw [hdata, create_bookings_go_cons]
    exact create_bookings_go_mem_pres _ _ (bookingCreate_mem _ _)
  · show (15000 : Int) * (today + 8 - (today + 5)) = 45000
    omega

/-- C1: every booking present after a run of the seed command either predates
the run or stores as total price the nightly price of its listing, as recorded
in the store, multiplied by the whole number of days from start to end date;
and an update of a listing nightly price never touches the booking table, so
already-created bookings keep their total price. -/
theorem seed_booking_total_price (c : Bool) (today : Int) (s0 : Store) :
    (∀ b ∈ (handle c today s0).bookings,
      b ∈ s0.bookings ∨
      ∃ l ∈ (handle c today s0).listings,
        l.id = b.listing_id ∧
        b.total_price = l.price_per_night * (b.end_date - b.start_date)) ∧
    (∀ (s : Store) (lid : Nat) (p : Cents),
      (updateListingPrice s lid p).bookings = s.bookings) := by
  constructor
  · have h5 : ∀ s1 : Store,
        (create_listings_go listings_data (create_users_go users_data s1).1).2.length = 5 := by
      intro s1
      rw [create_listings_go_len]
      rfl
    cases c
    · intro b hb
      rw [handle_false_pipeline, seedPipeline_bookings] at hb
      rcases create_bookings_go_chara _ _ b hb with hold | ⟨bd, hbd, hlid, htotal⟩
      · rw [create_listings_go_bookings, create_users_go_bookings] at hold
        exact Or.inl hold
      · refine Or.inr ⟨bd.listing, ?_, hlid.symm, htotal⟩
        rw [handle_false_pipeline, seedPipeline_listings]
        exact create_listings_go_result_mem _ _ _
          (bookings_data_listing_mem _ _ _ (h5 s0) bd hbd)
    · intro b hb
      rw [handle_true_pipeline, seedPipeline_bookings] at hb
      rcases create_bookings_go_chara _ _ b hb with hold | ⟨bd, hbd, hlid, htotal⟩
      · rw [create_listings_go_bookings, create_users_go_bookings] at hold
        simp [clearData, deleteAllReviews, deleteAllBookings, deleteAllListings] at hold
      · refine Or.inr ⟨bd.listing, ?_, hlid.symm, htotal⟩
        rw [handle_true_pipeline, seedPipeline_listings]
        exact create_listings_go_result_mem _ _ _
          (bookings_data_listing_mem _ _ _ (h5 (clearData s0).1) bd hbd)
  · exact fun s lid p => rfl

/-- Closed instance of the C1 theorem at the first booking of a seed run over
the empty store with today equal to day 0, discharging the membership
hypothesis by computation. -/
theorem seed_booking_total_price_witness :
    (⟨8, 3, 0, (5 : Int), 8, 45000, "confirmed"⟩ : Booking) ∈ emptyStore.bookings ∨
    ∃ l ∈ (handle false 0 emptyStore).listings,
      l.id = 3 ∧ (45000 : Cents) = l.price_per_night * ((8 : Int) - 5) := by
  exact (seed_booking_total_price false 0 emptyStore).1
    ⟨8, 3, 0, 5, 8, 45000, "confirmed"⟩ (by decide)

/-- Closed instance of the C3 theorem: a rating of 7 is rejected with a
ValidationError by the validating persistence path. -/
theorem review_rating_validation_witness :
    reviewFullCleanCreate emptyStore 3 7 "bad" = Except.error "ValidationError" := by
  have h := review_rating_validation emptyStore 3 7 "bad"
  rw [if_neg (by omega)] at h
  exact h

/-- Closed instance of the C8 theorem: the two twin bookings serialize to the
same listing string although they reference different listings. -/
theorem booking_serialization_stringifies_witness :
    (BookingSerializer twinStore twinBooking1).listing =
      (BookingSerializer twinStore twinBooking2).listing :=
  (booking_serialization_stringifies twinStore twinBooking1).2.2.2.2.1

end AlxTravel
